import Mathlib

/-!
# LIVE-HUB workspace core — shallow embedding and verification

This file embeds, in Lean 4, the core logic of the LIVE-HUB browser workspace
shell and settles a fixed list of claims about it:

* the Process Output Classifier (`pipeProcessOutput` in
  `src/lib/webcontainer-client.ts`),
* the Run-Command Inferencer (`inferDevCommand` / `buildCommand` in
  `src/lib/workspace.ts`),
* the Template Detector (`detectWorkspaceTemplate` and its per-framework
  helpers appended to `src/lib/webcontainer-client.ts`),
* the Sandbox Orchestrator state machine (`launchWorkspace`,
  `cancelInstallation`, `prepareFreshInstance`, `runInstall`, `runDevServer`
  in `src/lib/webcontainer-client.ts`).

Conventions of the embedding:

* JavaScript objects used as string maps become association lists
  (`List (String × String)`); `obj[k]` is `lookup`, the `in` operator is
  `hasKey`, and JavaScript truthiness of a looked-up version string is
  "present with a non-empty value" (`truthyLookup`), since the only falsy
  string is `""`.
* Stateful module-level code becomes explicit state passing over a `St`
  record holding the module globals and the observable store; observable
  actions are additionally recorded in an append-only event list so that
  ordering claims can be stated.
* Asynchronous `await` points are modelled by splitting a function into the
  phase before the await and the continuation after it; a concrete
  interleaving of two launches is then a composition of those phases.
* Fallible steps return `Option String` (the thrown message) or
  `Except String α`; the `try`/`catch` of the source is an explicit `match`.
-/

namespace LiveHub

/-! ## String utilities shared by the embedded functions

JavaScript `String.prototype.includes`, `toLowerCase`, `trimEnd` and
`split(/\r?\n/)` are modelled over `List Char`. -/

/-- `startsWithList s p` : `p` is an initial segment of `s` (char lists). -/
def startsWithList : List Char → List Char → Bool
  | _, [] => true
  | [], _ :: _ => false
  | a :: as, b :: bs => a == b && startsWithList as bs

/-- `hasSubList s p` : `p` occurs contiguously somewhere inside `s`
(the semantics of JavaScript `s.includes(p)`). -/
def hasSubList : List Char → List Char → Bool
  | s, p =>
    if startsWithList s p then true
    else
      match s with
      | [] => false
      | _ :: rest => hasSubList rest p

/-- JavaScript `s.includes(p)` on strings. -/
def strIncludes (s p : String) : Bool :=
  hasSubList s.toList p.toList

/-- JavaScript `toLowerCase` (ASCII case folding suffices for the
classifier's keywords). -/
def lowerStr (s : String) : String :=
  String.mk (s.toList.map Char.toLower)

/-- Whitespace characters removed by JavaScript `trimEnd` (the ones that can
occur in process output). -/
def jsWhitespace (c : Char) : Bool :=
  c == ' ' || c == '\t' || c == '\n' || c == '\r' || c == '\x0b' || c == '\x0c'

/-- JavaScript `line.trimEnd()` over a char list. -/
def trimEndList (s : List Char) : List Char :=
  (s.reverse.dropWhile jsWhitespace).reverse

/-- JavaScript `line.trimEnd()`. -/
def trimEndStr (s : String) : String :=
  String.mk (trimEndList s.toList)

/-- JavaScript `text.split(/\r?\n/)`: a split point is either `\r\n` or a
lone `\n`; a lone `\r` does not split. -/
def splitLinesList : List Char → List (List Char)
  | [] => [[]]
  | '\r' :: '\n' :: rest => [] :: splitLinesList rest
  | '\n' :: rest => [] :: splitLinesList rest
  | c :: rest =>
    match splitLinesList rest with
    | [] => [[c]]
    | l :: ls => (c :: l) :: ls

/-- `text.split(/\r?\n/)` on strings. -/
def splitLinesStr (s : String) : List String :=
  (splitLinesList s.toList).map String.mk

/-! ## Process Output Classifier

Embeds the per-chunk body of `pipeProcessOutput`
(`src/lib/webcontainer-client.ts`, lines 358–386): split the chunk on line
breaks, trim each line's end, drop empty lines, classify each remaining
line by lexical signal, and append it as a console line. -/

/-- Console line level. -/
inductive Level where
  | info
  | warn
  | error
deriving DecidableEq, Repr

/-- The level assigned to one (already trimmed, non-empty) output line:
`error` if its lowercase form contains `"error"` or `"err!"`, else `warn`
if it contains `"warn"`, else `info`. -/
def classifyLine (line : String) : Level :=
  let lower := lowerStr line
  if strIncludes lower "error" || strIncludes lower "err!" then .error
  else if strIncludes lower "warn" then .warn
  else .info

/-- The console lines produced from one raw output chunk, in order
(the `write` body of `pipeProcessOutput`). -/
def processChunk (text : String) : List (Level × String) :=
  (((splitLinesStr text).map trimEndStr).filter (fun l => l.length > 0)).map
    (fun l => (classifyLine l, l))

/-! ## String-map helpers

`package.json` objects (`scripts`, `dependencies`, `devDependencies`) are
modelled as insertion-ordered association lists. An absent object and an
empty object behave identically at every use site (`??`/`||` defaulting),
so both are the empty list. -/

/-- `obj[k]` on a string map. -/
def lookup (m : List (String × String)) (k : String) : Option String :=
  (m.find? (fun p => p.1 == k)).map (·.2)

/-- The `in` operator: key presence regardless of the value. -/
def hasKey (m : List (String × String)) (k : String) : Bool :=
  (lookup m k).isSome

/-- JavaScript truthiness of a looked-up version string: present and
non-empty (the only falsy string is `""`). -/
def truthy (o : Option String) : Bool :=
  match o with
  | some v => v != ""
  | none => false

/-- JavaScript `s.trim()` (both ends). -/
def trimStr (s : String) : String :=
  String.mk ((trimEndList s.toList).dropWhile jsWhitespace)

/-! ## Run-Command Inferencer — `src/lib/workspace.ts`

`PackageJson`, `DevCommandSpec`, `inferDevCommand` and `buildCommand`
translated from `src/lib/workspace.ts` lines 4–138 and 224–246. -/

/-- `PackageManager` from `@/state/app-store`. -/
inductive PackageManager where
  | npm
  | pnpm
  | yarn
deriving DecidableEq, Repr

/-- `WorkspaceFramework` from `@/state/app-store` (values used by
`inferDevCommand`). -/
inductive WorkspaceFramework where
  | next
  | vite
  | createReactApp
  | custom
  | unknown
deriving DecidableEq, Repr

/-- `PackageJson` (`src/lib/workspace.ts` lines 13–18); the three maps,
with absent maps as empty lists. -/
structure PackageJson where
  scripts : List (String × String)
  dependencies : List (String × String)
  devDependencies : List (String × String)
deriving DecidableEq, Repr

/-- `DevCommandSpec` (`src/lib/workspace.ts` lines 4–11). -/
structure DevCommandSpec where
  framework : WorkspaceFramework
  scriptName : String
  command : String
  args : List String
  display : String
  port : Nat
deriving DecidableEq, Repr

/-- `buildCommand` (`src/lib/workspace.ts` lines 224–246). -/
def buildCommand (packageManager : PackageManager) (scriptName : String) :
    String × List String × String :=
  match packageManager with
  | .npm => ("npm", ["run", scriptName], "npm run " ++ scriptName)
  | .yarn => ("yarn", [scriptName], "yarn " ++ scriptName)
  | .pnpm => ("pnpm", [scriptName], "pnpm " ++ scriptName)

/-- The prompt capability: `(message, default) -> string|null`, absent when
no prompt function is supplied. -/
def PromptFn := String → String → Option String

/-- `inferDevCommand` (`src/lib/workspace.ts` lines 49–138). The merged
dependency map `{...dependencies, ...devDependencies}` is consulted by key
presence (the `in` operator); script text matching is case-insensitive on
the script command string. -/
def inferDevCommand (pkg? : Option PackageJson) (packageManager : PackageManager)
    (promptFn : Option PromptFn) : Option DevCommandSpec :=
  match pkg? with
  | none => none
  | some pkg =>
    let scripts := pkg.scripts
    let normalisedScripts := scripts.map (fun p => (p.1, lowerStr p.2))
    let scriptIncludes := fun (name snippet : String) =>
      match lookup normalisedScripts name with
      | some v => strIncludes v snippet
      | none => false
    let hasScript := fun (name : String) => (lookup scripts name).isSome
    let depsHasKey := fun (k : String) =>
      hasKey pkg.dependencies k || hasKey pkg.devDependencies k
    let selected : Option (WorkspaceFramework × String × Nat) :=
      if scriptIncludes "dev" "next" || depsHasKey "next" ||
          scriptIncludes "dev" "turbo dev" then
        some (.next, "dev", 3000)
      else if scriptIncludes "dev" "vite" || depsHasKey "vite" then
        some (.vite, "dev", 5173)
      else if scriptIncludes "start" "react-scripts" || depsHasKey "react-scripts" then
        some (.createReactApp, "start", 3000)
      else if hasScript "dev" then
        some (.custom, "dev", 3000)
      else if hasScript "start" then
        some (.custom, "start", 3000)
      else
        none
    let selected :=
      match selected with
      | some s => some s
      | none =>
        let availableScripts := scripts.map Prod.fst
        match promptFn with
        | none => none
        | some f =>
          if availableScripts.length > 0 then
            let suggested :=
              if availableScripts.contains "dev" then "dev"
              else availableScripts.headD ""
            let message :=
              "No dev script detected. Enter the package.json script to run (available: " ++
                String.intercalate ", " availableScripts ++ ")"
            match f message suggested with
            | some response =>
              if (trimStr response).length > 0 then
                some (.custom, trimStr response, 3000)
              else none
            | none => none
          else none
    match selected with
    | none => none
    | some (framework, scriptName, port) =>
      let c := buildCommand packageManager scriptName
      some ⟨framework, scriptName, c.1, c.2.1, c.2.2, port⟩

/-! ## Template Detector — appended detector module of
`src/lib/webcontainer-client.ts`

`RepositoryManifest`, `DetectionResult`, `detectWorkspaceTemplate`,
`detectNextJs`, `detectVite`, `detectCreateReactApp`, `matchesIndicators`.
Template identifiers are kept as the literal strings of the source. -/

/-- Detection confidence. -/
inductive Confidence where
  | high
  | medium
  | low
deriving DecidableEq, Repr

/-- `RepositoryManifest` (detector module lines 418–427); optional boolean
flags are coerced with `|| false` at every use, so they are plain `Bool`. -/
structure RepositoryManifest where
  packageJson : Option PackageJson
  hasPackageLock : Bool
  hasYarnLock : Bool
  hasPnpmLock : Bool
  hasNextConfig : Bool
  hasViteConfig : Bool
  repoName : Option String
  repoDescription : Option String
deriving DecidableEq, Repr

/-- `DetectionResult` (detector module lines 429–433). -/
structure DetectionResult where
  templateId : Option String
  confidence : Confidence
  reason : String
deriving DecidableEq, Repr

/-- `matchesIndicators` (detector module lines 606–610): falsy (absent or
empty) text never matches; otherwise case-insensitive containment of any
indicator. -/
def matchesIndicators (text : Option String) (indicators : List String) : Bool :=
  match text with
  | none => false
  | some t =>
    if t == "" then false
    else indicators.any (fun indicator => strIncludes (lowerStr t) indicator)

/-- The merged `{...deps, ...devDeps}` lookup: a later spread shadows an
earlier one, so `devDependencies` win on shared keys. -/
def allDepsLookup (deps devDeps : List (String × String)) (k : String) : Option String :=
  match lookup devDeps k with
  | some v => some v
  | none => lookup deps k

/-- `detectNextJs` (detector module lines 467–508). -/
def detectNextJs (packageJson : Option PackageJson) (hasNextConfig : Bool)
    (repoName repoDescription : Option String) : Option DetectionResult :=
  let deps := (packageJson.map (·.dependencies)).getD []
  let devDeps := (packageJson.map (·.devDependencies)).getD []
  if truthy (allDepsLookup deps devDeps "next") then
    some ⟨some "nextjs-starter", .high, "Next.js dependency found in package.json"⟩
  else if hasNextConfig then
    some ⟨some "nextjs-starter", .medium, "Next.js configuration file found"⟩
  else if matchesIndicators repoName ["next", "nextjs", "next-app"] ||
      matchesIndicators repoDescription ["next.js", "next app", "nextjs"] then
    some ⟨some "nextjs-starter", .low, "Repository name or description suggests Next.js"⟩
  else
    none

/-- `detectVite` (detector module lines 510–551). -/
def detectVite (packageJson : Option PackageJson) (hasViteConfig : Bool)
    (repoName repoDescription : Option String) : Option DetectionResult :=
  let deps := (packageJson.map (·.dependencies)).getD []
  let devDeps := (packageJson.map (·.devDependencies)).getD []
  if truthy (allDepsLookup deps devDeps "vite") then
    some ⟨some "vite-react-starter", .high, "Vite dependency found in package.json"⟩
  else if hasViteConfig then
    some ⟨some "vite-react-starter", .medium, "Vite configuration file found"⟩
  else if matchesIndicators repoName ["vite", "vite-app", "vite-react"] ||
      matchesIndicators repoDescription ["vite", "vite app", "vite react"] then
    some ⟨some "vite-react-starter", .low, "Repository name or description suggests Vite"⟩
  else
    none

/-- `detectCreateReactApp` (detector module lines 553–604). Note: the
high-confidence signal and the react/react-dom co-occurrence checks read
`packageJson.dependencies` only, not the merged map. -/
def detectCreateReactApp (packageJson : Option PackageJson) (hasYarnLock : Bool)
    (repoName repoDescription : Option String) : Option DetectionResult :=
  let deps := (packageJson.map (·.dependencies)).getD []
  let scripts := (packageJson.map (·.scripts)).getD []
  if truthy (lookup deps "react-scripts") then
    some ⟨some "cra-starter", .high,
      "Create React App dependency (react-scripts) found in package.json"⟩
  else
    let craScripts := ["start", "build", "test", "eject"]
    let hasCraScripts := craScripts.all (fun s => truthy (lookup scripts s))
    if hasCraScripts && truthy (lookup deps "react") && truthy (lookup deps "react-dom") then
      some ⟨some "cra-starter", .medium, "Create React App script pattern detected"⟩
    else if hasYarnLock && truthy (lookup deps "react") && truthy (lookup deps "react-dom") then
      some ⟨some "cra-starter", .low,
        "React project with yarn.lock detected (may be Create React App)"⟩
    else if matchesIndicators repoName ["create-react-app", "cra-app", "react-app"] ||
        matchesIndicators repoDescription ["create react app", "cra", "react app"] then
      some ⟨some "cra-starter", .low,
        "Repository name or description suggests Create React App"⟩
    else
      none

/-- `detectWorkspaceTemplate` (detector module lines 438–465): strict
framework priority next → vite → create-react-app, first non-null helper
result returned unchanged. -/
def detectWorkspaceTemplate (m : RepositoryManifest) : DetectionResult :=
  match detectNextJs m.packageJson m.hasNextConfig m.repoName m.repoDescription with
  | some r => r
  | none =>
    match detectVite m.packageJson m.hasViteConfig m.repoName m.repoDescription with
    | some r => r
    | none =>
      match detectCreateReactApp m.packageJson m.hasYarnLock m.repoName m.repoDescription with
      | some r => r
      | none =>
        ⟨none, .low,
          "Unable to determine a suitable template. The repository may use a custom setup or unsupported framework."⟩

/-! ## Sandbox Orchestrator — `src/lib/webcontainer-client.ts`

The orchestrator's module globals (`webcontainerInstance`, `installProcess`,
`devProcess`, `listenersBound`, `installTerminationCause`,
`devTerminationCause`) and the observable store (`webContainer` record and
console lines) become one explicit state record `St`; every function of the
source becomes a state transformer. Observable actions are additionally
recorded in an append-only `events` list so that ordering properties can be
stated. `await` points are modelled by splitting a source function into the
phase before the await and its continuation, which a scenario may
interleave with other phases. -/

/-- `WebContainerState.status` values. -/
inductive Status where
  | idle
  | initializing
  | installingDependencies
  | startingDevServer
  | ready
  | error
deriving DecidableEq, Repr

/-- Termination cause tag (`'user' | 'restart'`; `Option` for `null`). -/
inductive Cause where
  | user
  | restart
deriving DecidableEq, Repr

/-- The observable `webContainer` record of the store (fields written by the
orchestrator). -/
structure WCState where
  status : Status
  installProgress : Nat
  installPhase : Option String
  packageManager : Option PackageManager
  framework : WorkspaceFramework
  devCommandLabel : Option String
  previewPort : Option Nat
  previewUrl : Option String
  lastMessage : Option String
  errorMsg : Option String
  logs : List String
deriving DecidableEq, Repr

/-- Recorded observable actions, used to state ordering properties. -/
inductive Event where
  | setInstallCause (c : Option Cause)
  | setDevCause (c : Option Cause)
  | killInstall (pid : Nat)
  | killDev (pid : Nat)
  | teardownInstance
  | resetConsole
  | statusSet (st : Status)
  | booted
  | syncFailed
  | mounted
  | inferRan (ok : Bool)
  | spawnInstall (pid : Nat)
  | installExited (code : Int)
  | spawnDev (pid : Nat)
  | provisionalPort (p : Nat)
  | serverReadyFired (p : Nat)
  | caught
deriving DecidableEq, Repr

/-- Module globals plus the store: the whole mutable state of
`src/lib/webcontainer-client.ts`. -/
structure St where
  webcontainerInstance : Option Nat
  installProcess : Option Nat
  devProcess : Option Nat
  listenersBound : Bool
  installTerminationCause : Option Cause
  devTerminationCause : Option Cause
  web : WCState
  consoleLines : List (Level × String)
  fileTreeSet : Bool
  events : List Event
deriving DecidableEq, Repr

/-- Record an observable action. -/
def emit (e : Event) (s : St) : St :=
  { s with events := s.events ++ [e] }

/-- `pushLog` (lines 406–408): append one console line. -/
def pushLog (text : String) (level : Level) (s : St) : St :=
  { s with consoleLines := s.consoleLines ++ [(level, text)] }

/-- The string form of a package manager used in messages and as the
spawned install command. -/
def pmName : PackageManager → String
  | .npm => "npm"
  | .pnpm => "pnpm"
  | .yarn => "yarn"

/-- What the orchestrator reads from a mounted file tree: lockfile presence
(for `detectPackageManager`) and the parsed manifest (the result of
`parsePackageJson`; the JSON text and its parsing are external to the
claims settled here, so a tree is carried together with its parse
result). -/
structure Files where
  hasPnpmLockYaml : Bool
  hasPnpmLockYml : Bool
  hasYarnLock : Bool
  manifest : Option PackageJson
deriving DecidableEq, Repr

/-- `detectPackageManager` (`src/lib/workspace.ts` lines 22–32): pnpm
lockfile variants first, then yarn, npm as the default. -/
def detectPackageManager (tree : Files) : PackageManager :=
  if tree.hasPnpmLockYaml || tree.hasPnpmLockYml then .pnpm
  else if tree.hasYarnLock then .yarn
  else .npm

/-- `parsePackageJson` (`src/lib/workspace.ts` lines 34–47) on the
abstracted tree: the manifest, or `none` when absent or unparseable. -/
def parsePackageJson (tree : Files) : Option PackageJson :=
  tree.manifest

/-- `WorkspaceTemplate` (`src/lib/workspace-templates.ts` lines 5–11). -/
structure WorkspaceTemplate where
  id : String
  label : String
  description : String
  defaultPort : Nat
  files : Files
deriving DecidableEq, Repr

/-- The parsed manifest of the bundled Next.js starter
(`workspace-templates.ts`, `NEXT_PACKAGE_JSON` lines 13–28). -/
def nextStarterPkg : PackageJson :=
  ⟨[("dev", "next dev"), ("build", "next build"), ("start", "next start")],
    [("next", "14.2.4"), ("react", "18.2.0"), ("react-dom", "18.2.0")], []⟩

/-- The Next.js starter tree (`workspace-templates.ts`, `nextStarter`
lines 112–157) abstracted to what the orchestrator reads: it carries a
`package-lock.json` but no pnpm or yarn lockfile, and its `package.json`
parses to `nextStarterPkg`. -/
def nextStarterFiles : Files :=
  ⟨false, false, false, some nextStarterPkg⟩

/-- The parsed manifest of the bundled Vite starter
(`workspace-templates.ts`, `VITE_PACKAGE_JSON` lines 159–178). -/
def viteStarterPkg : PackageJson :=
  ⟨[("dev", "vite"), ("build", "vite build"), ("preview", "vite preview")],
    [("react", "18.2.0"), ("react-dom", "18.2.0")],
    [("@vitejs/plugin-react", "5.0.0"), ("typescript", "5.3.2"), ("vite", "5.0.13")]⟩

/-- The Vite starter tree (`workspace-templates.ts`, `viteStarter` lines
288–338): it carries a `pnpm-lock.yaml`, and its `package.json` parses to
`viteStarterPkg`. -/
def viteStarterFiles : Files :=
  ⟨true, false, false, some viteStarterPkg⟩

/-- The parsed manifest of the bundled Create React App starter
(`workspace-templates.ts`, `CRA_PACKAGE_JSON` lines 340–356). -/
def craStarterPkg : PackageJson :=
  ⟨[("start", "react-scripts start"), ("build", "react-scripts build"),
      ("test", "react-scripts test"), ("eject", "react-scripts eject")],
    [("react", "18.2.0"), ("react-dom", "18.2.0"), ("react-scripts", "5.0.1")], []⟩

/-- The CRA starter tree (`workspace-templates.ts`, `craStarter` lines
432–476): it carries a `yarn.lock`, and its `package.json` parses to
`craStarterPkg`. -/
def craStarterFiles : Files :=
  ⟨false, false, true, some craStarterPkg⟩

/-- `WORKSPACE_TEMPLATES` (`workspace-templates.ts` lines 478–500): the
fixed bundled registry, keyed by template id. -/
def WORKSPACE_TEMPLATES : List (String × WorkspaceTemplate) :=
  [("nextjs-starter",
      ⟨"nextjs-starter", "Next.js starter",
        "Minimal Next.js App Router project with Tailwind-style styling defaults.",
        3000, nextStarterFiles⟩),
    ("vite-react-starter",
      ⟨"vite-react-starter", "Vite + React starter",
        "Vite React template configured for TypeScript in WebContainers.",
        5173, viteStarterFiles⟩),
    ("cra-starter",
      ⟨"cra-starter", "Create React App starter",
        "Classic CRA template booting on port 3000.",
        3000, craStarterFiles⟩)]

/-- `getWorkspaceTemplateById` (`workspace-templates.ts` lines 502–508):
`undefined` for a falsy id (absent or empty), else the registry entry for
that id, `undefined` when the id is not in the registry. -/
def getWorkspaceTemplateById (id : Option String) : Option WorkspaceTemplate :=
  match id with
  | none => none
  | some s =>
    if s == "" then none
    else (WORKSPACE_TEMPLATES.find? (fun p => p.1 == s)).map (·.2)

/-- JavaScript `x || d` on an optional number (`0` is falsy). -/
def jsOrNat (o : Option Nat) (d : Nat) : Nat :=
  match o with
  | some n => if n = 0 then d else n
  | none => d

/-- JavaScript `repository.workspaceTemplateId || 'nextjs-starter'`
(`""` is falsy). -/
def templateIdOrDefault (o : Option String) : String :=
  match o with
  | some s => if s == "" then "nextjs-starter" else s
  | none => "nextjs-starter"

/-- One launch's external world: every `await`ed collaborator outcome and
process identity fixed up front, so that one launch is a deterministic
state transformer. -/
structure LaunchEnv where
  hasWindow : Bool
  bootSucceeds : Bool
  syncResult : Option (Files × PackageManager × Bool)
  syncErrorMessage : String
  syncProgressMessages : List String
  workspaceTemplateId : Option String
  repoOwner : String
  repoName : String
  promptFn : Option PromptFn
  instanceId : Nat
  installPid : Nat
  installChunks : List String
  installExitCode : Int
  devPid : Nat
  devChunks : List String

/-- `bindInstanceEvents` (lines 332–356): idempotent per instance; the
`server-ready` and `error` subscriptions exist exactly while
`listenersBound` is set. -/
def bindInstanceEvents (s : St) : St :=
  if s.listenersBound then s else { s with listenersBound := true }

/-- `bootWebContainer` (lines 311–330): reuse a live instance, else check
for service-worker support (throwing if unavailable), boot, and bind the
instance event subscriptions. -/
def bootWebContainer (env : LaunchEnv) (s : St) : St × Except String Nat :=
  match s.webcontainerInstance with
  | some inst => (s, .ok inst)
  | none =>
    if env.bootSucceeds = false then
      (s, .error "WebContainers require service worker support, which is unavailable in this browser.")
    else
      let s := { s with webcontainerInstance := some env.instanceId, listenersBound := false }
      let s := emit .booted s
      (bindInstanceEvents s, .ok env.instanceId)

/-- `prepareFreshInstance` (lines 276–309): mark any live install process
`restart` and kill it (await, errors swallowed), likewise the dev process,
then tear down any previous instance; all handles nulled. -/
def prepareFreshInstance (s : St) : St :=
  let s :=
    match s.installProcess with
    | some pid =>
      let s := { s with installTerminationCause := some .restart }
      let s := emit (.setInstallCause (some .restart)) s
      let s := emit (.killInstall pid) s
      { s with installProcess := none }
    | none => s
  let s :=
    match s.devProcess with
    | some pid =>
      let s := { s with devTerminationCause := some .restart }
      let s := emit (.setDevCause (some .restart)) s
      let s := emit (.killDev pid) s
      { s with devProcess := none }
    | none => s
  match s.webcontainerInstance with
  | some _ =>
    let s := emit .teardownInstance s
    { s with webcontainerInstance := none, listenersBound := false }
  | none => s

/-- The progress callback plus line classification applied to one install
output chunk (`runInstall` lines 198–207 feeding `pipeProcessOutput`):
non-blank chunks bump the capped progress estimate, then each classified
line is appended to the console. -/
def applyInstallChunk (chunk : String) (s : St) : St :=
  let s :=
    if (trimStr chunk).length > 0 then
      let currentProgress := s.web.installProgress
      if currentProgress < 95 then
        { s with web := { s.web with installProgress := min 95 (currentProgress + 3) } }
      else s
    else s
  (processChunk chunk).foldl (fun s lv => pushLog lv.2 lv.1 s) s

/-- Dev-server output is piped with no progress callback
(`pipeProcessOutput(devProcess)`). -/
def applyDevChunk (chunk : String) (s : St) : St :=
  (processChunk chunk).foldl (fun s lv => pushLog lv.2 lv.1 s) s

/-- `runInstall` up to `await process.exit` (lines 191–208): spawn the
install process, record the handle, clear the termination cause, and stream
the output chunks. -/
def runInstallSpawn (env : LaunchEnv) (s : St) : St :=
  let s := emit (.spawnInstall env.installPid) s
  let s := { s with
    installProcess := some env.installPid
    installTerminationCause := none }
  let s := emit (.setInstallCause none) s
  env.installChunks.foldl (fun s c => applyInstallChunk c s) s

/-- `runInstall` from `await process.exit` on (lines 209–223): null the
handle, and unless the global termination cause at this moment is `restart`
or `user`, publish the success/failure message; the exit code is returned
to the caller in every case. -/
def runInstallResume (code : Int) (s : St) : St × Int :=
  let s := emit (.installExited code) s
  let s := { s with installProcess := none }
  match s.installTerminationCause with
  | some .restart => (s, code)
  | some .user => (s, code)
  | none =>
    let msg :=
      if code = 0 then "Dependencies installed successfully."
      else "Dependency installation encountered an error."
    ({ s with web := { s.web with lastMessage := some msg } }, code)

/-- `runDevServer` (lines 226–274): spawn the dev command (with `PORT`
fixed to the inferred port and browser auto-open disabled), clear the dev
termination cause, pipe its output, ensure the instance subscriptions are
bound, and immediately publish the provisional preview port. The exit
watcher it registers is `devExitHandler`. -/
def runDevServer (env : LaunchEnv) (defaultPort : Nat) (s : St) : St :=
  let s := emit (.spawnDev env.devPid) s
  let s := { s with devProcess := some env.devPid, devTerminationCause := none }
  let s := emit (.setDevCause none) s
  let s := env.devChunks.foldl (fun s c => applyDevChunk c s) s
  let s := bindInstanceEvents s
  let s := { s with web := { s.web with previewPort := some defaultPort } }
  emit (.provisionalPort defaultPort) s

/-- The dev-process exit watcher (lines 237–263), invoked when the dev
process's exit promise settles: consume the termination cause; `restart`
logs and stops, `user` does nothing, and an unexpected non-zero exit
transitions to `error`. -/
def devExitHandler (code : Int) (s : St) : St :=
  let s := { s with devProcess := none }
  let cause := s.devTerminationCause
  let s := { s with devTerminationCause := none }
  match cause with
  | some .restart =>
    pushLog "Development server stopped in preparation for restart." .info s
  | some .user => s
  | none =>
    if code ≠ 0 then
      let message := "Dev server exited unexpectedly (code " ++ toString code ++ ")."
      let s := { s with web := { s.web with
        status := .error
        lastMessage := some message
        errorMsg := some message
        previewPort := none
        previewUrl := none } }
      let s := emit (.statusSet .error) s
      pushLog message .error s
    else s

/-- The `server-ready` subscription handler (lines 337–347); it is
delivered only while the instance subscriptions are bound. -/
def serverReadyHandler (port : Nat) (url : String) (s : St) : St :=
  if s.listenersBound = false then s
  else
    let s := emit (.serverReadyFired port) s
    let s := { s with web := { s.web with
      status := .ready
      lastMessage := some ("Development server ready on port " ++ toString port ++ ".")
      previewPort := some port
      previewUrl := some url
      installProgress := 100
      installPhase := none } }
    let s := emit (.statusSet .ready) s
    pushLog ("Development server is ready at " ++ url ++ ".") .info s

/-- `reportError` (lines 410–415): the single error handler every caught
failure funnels into — set status `error`, record the message, log it. -/
def reportError (message : String) (s : St) : St :=
  let s := emit .caught s
  let s := { s with web := { s.web with
    status := .error
    errorMsg := some message
    lastMessage := some message } }
  let s := emit (.statusSet .error) s
  pushLog message .error s

/-- The repository synchronizer's `onProgress` callback (lines 57–60):
each message updates `lastMessage` and is logged. -/
def applyProgress (msgs : List String) (s : St) : St :=
  msgs.foldl
    (fun s m => pushLog m .info { s with web := { s.web with lastMessage := some m } }) s

/-- `launchWorkspace` lines 46–83: try `syncRepository`; on failure fall
back to the bundled template (throwing when no template exists). Returns
`(files, packageManager, hasPackageJson, usedFallback)`. -/
def syncOrFallback (env : LaunchEnv) (s : St) :
    St × Except String (Files × PackageManager × Bool × Bool) :=
  match env.syncResult with
  | some (files, packageManager, hasPackageJson) =>
    let s := applyProgress env.syncProgressMessages s
    let s := pushLog "Repository files synced successfully." .info s
    (s, .ok (files, packageManager, hasPackageJson, false))
  | none =>
    let s := applyProgress env.syncProgressMessages s
    let s := pushLog ("Repository sync failed: " ++ env.syncErrorMessage) .warn s
    let s := emit .syncFailed s
    match getWorkspaceTemplateById
        (some (templateIdOrDefault env.workspaceTemplateId)) with
    | none =>
      (s, .error ("No workspace template available for " ++ env.repoName ++
        " and repository sync failed."))
    | some template =>
      let files := template.files
      let packageManager := detectPackageManager template.files
      let hasPackageJson := (parsePackageJson template.files).isSome
      let s := pushLog "Falling back to workspace template." .warn s
      let s := { s with web :=
        { s.web with lastMessage := some "Using template fallback due to sync failure." } }
      (s, .ok (files, packageManager, hasPackageJson, true))

/-- `launchWorkspace` lines 22–39: clear the console and reset the
observable record to `initializing`. -/
def launchInitialState (env : LaunchEnv) (s : St) : St :=
  let s := { s with consoleLines := [] }
  let s := emit .resetConsole s
  let s := { s with web := { s.web with
    status := .initializing
    installProgress := 0
    installPhase := none
    packageManager := none
    framework := .unknown
    devCommandLabel := none
    previewPort := none
    previewUrl := none
    errorMsg := none
    logs := []
    lastMessage := some "Booting WebContainer runtime…" } }
  let s := emit (.statusSet .initializing) s
  pushLog ("Launching workspace for " ++ env.repoOwner ++ "/" ++ env.repoName ++ "…")
    .info s

/-- What the part of a launch before the install-exit await hands to its
continuation. -/
structure LaunchMid where
  devCommand : DevCommandSpec
  usedFallback : Bool
deriving DecidableEq, Repr

/-- The try-block of `launchWorkspace` up to `await runInstall(...)`
(lines 42–119): boot, sync or fall back, mount, require a manifest, set
state `installing-dependencies`, infer the dev command (throwing when
`null`), publish framework and label, spawn the install process. An
`.error` is a throw inside the try-block. -/
def launchPrefix (env : LaunchEnv) (s : St) : St × Except String LaunchMid :=
  match bootWebContainer env s with
  | (s, .error msg) => (s, .error msg)
  | (s, .ok _instance) =>
    let s := pushLog "WebContainer runtime ready." .info s
    let s := { s with web := { s.web with lastMessage := some "Syncing repository files…" } }
    match syncOrFallback env s with
    | (s, .error msg) => (s, .error msg)
    | (s, .ok (files, packageManager, hasPackageJson, usedFallback)) =>
      let s := emit .mounted s
      let s := { s with fileTreeSet := true }
      let s := pushLog ("Filesystem mounted inside WebContainer (" ++
        (if usedFallback then "template" else "synced repository") ++ ").") .info s
      if hasPackageJson = false then
        (s, .error "No package.json found in the repository. Cannot determine project structure.")
      else
        let s := { s with web := { s.web with
          status := .installingDependencies
          packageManager := some packageManager
          installProgress := 5
          installPhase := some "starting"
          lastMessage := some ("Installing dependencies with " ++ pmName packageManager ++ "…") } }
        let s := emit (.statusSet .installingDependencies) s
        let s := pushLog ("Installing dependencies with " ++ pmName packageManager ++ "…") .info s
        let packageJson := parsePackageJson files
        let devCommand? := inferDevCommand packageJson packageManager env.promptFn
        let s := emit (.inferRan devCommand?.isSome) s
        match devCommand? with
        | none =>
          (s, .error "Unable to determine the development server command. Define a dev or start script in package.json.")
        | some devCommand =>
          let s := { s with web := { s.web with
            framework := devCommand.framework
            devCommandLabel := some devCommand.display
            previewPort := none
            previewUrl := none } }
          (runInstallSpawn env s, .ok ⟨devCommand, usedFallback⟩)

/-- The try-block of `launchWorkspace` from the install exit on
(lines 119–137): finish `runInstall`, stop silently when the global cause
is `user`, throw on a non-zero exit code (only the `user` cause is
checked here), else set state `starting-dev-server` and run the dev
server with the provisional default port of line 137. -/
def launchTail (env : LaunchEnv) (mid : LaunchMid) (code : Int) (s : St) :
    St × Option String :=
  match runInstallResume code s with
  | (s, installExitCode) =>
    if s.installTerminationCause = some .user then
      (s, none)
    else if installExitCode ≠ 0 then
      (s, some ("Dependency installation failed with exit code " ++
        toString installExitCode ++ ". Check the console for details."))
    else
      let s := { s with web := { s.web with
        status := .startingDevServer
        installProgress := 100
        installPhase := none
        lastMessage := some ("Starting dev server (" ++ mid.devCommand.display ++ ")…") } }
      let s := emit (.statusSet .startingDevServer) s
      let s := pushLog ("Starting dev server via " ++ mid.devCommand.display ++ "…") .info s
      let defaultPort :=
        if mid.usedFallback then
          jsOrNat ((getWorkspaceTemplateById
            (some (templateIdOrDefault env.workspaceTemplateId))).map (·.defaultPort)) 3000
        else 3000
      (runDevServer env defaultPort s, none)

/-- A launch's continuation once its install exit promise settles: the rest
of the try-block plus the surrounding catch funnelling any throw into
`reportError`. -/
def launchInstallContinuation (env : LaunchEnv) (mid : LaunchMid) (code : Int)
    (s : St) : St :=
  match launchTail env mid code s with
  | (s, some msg) => reportError msg s
  | (s, none) => s

/-- `launchWorkspace` (lines 17–141). `ensureClientEnvironment` (lines
388–392) runs before the try/catch, so its throw escapes the call as a
rejected promise: the second component is the escaped exception, `none`
when the call resolves normally. The sequential (non-interleaved) run
resolves every await in program order. -/
def launchWorkspace (env : LaunchEnv) (s : St) : St × Option String :=
  if env.hasWindow = false then
    (s, some "WebContainers can only be used in the browser environment.")
  else
    let s := prepareFreshInstance s
    let s := launchInitialState env s
    match launchPrefix env s with
    | (s, .error msg) => (reportError msg s, none)
    | (s, .ok mid) =>
      (launchInstallContinuation env mid env.installExitCode s, none)

/-- `cancelInstallation` (lines 143–165): no-op without a live install;
otherwise record cause `user`, kill (the catch swallows a kill failure),
null the handle, reset to `idle` with the cancellation message. The second
component is an escaped exception — always `none`. -/
def cancelInstallation (killFails : Bool) (s : St) : St × Option String :=
  match s.installProcess with
  | none => (s, none)
  | some pid =>
    let s := { s with installTerminationCause := some .user }
    let s := emit (.setInstallCause (some .user)) s
    let killResult : Except String Unit :=
      if killFails then .error "Failed to cancel installation" else .ok ()
    let s := emit (.killInstall pid) s
    let s :=
      match killResult with
      | .error _ => s
      | .ok _ => s
    let s := { s with installProcess := none }
    let s := { s with web := { s.web with
      status := .idle
      installProgress := 0
      installPhase := none
      lastMessage := some "Installation cancelled by user." } }
    let s := emit (.statusSet .idle) s
    (pushLog "Dependency installation cancelled by user request." .warn s, none)

/-- `stopDevServer` (lines 167–189): the dev-server counterpart of
`cancelInstallation`; also clears the preview port and URL. -/
def stopDevServer (killFails : Bool) (s : St) : St × Option String :=
  match s.devProcess with
  | none => (s, none)
  | some pid =>
    let s := { s with devTerminationCause := some .user }
    let s := emit (.setDevCause (some .user)) s
    let killResult : Except String Unit :=
      if killFails then .error "Failed to stop dev server" else .ok ()
    let s := emit (.killDev pid) s
    let s :=
      match killResult with
      | .error _ => s
      | .ok _ => s
    let s := { s with devProcess := none }
    let s := { s with web := { s.web with
      status := .idle
      lastMessage := some "Development server stopped."
      previewPort := none
      previewUrl := none } }
    let s := emit (.statusSet .idle) s
    (pushLog "Development server stopped by user." .info s, none)

/-! ## Interleavings and derived notions -/

/-- The events that order the claims about a launch's phases. -/
def keyEvent : Event → Bool
  | .statusSet _ => true
  | .inferRan _ => true
  | .spawnInstall _ => true
  | .installExited _ => true
  | .spawnDev _ => true
  | .provisionalPort _ => true
  | _ => false

/-- The ordered key events of a trace. -/
def keyEvents (tr : List Event) : List Event :=
  tr.filter keyEvent

/-- The superseding-launch interleaving of claim C1: launch A proceeds to
awaiting its install's exit; launch B is invoked and runs through spawning
its own install (B's `prepareFreshInstance` marks A's install `restart`
and kills it, awaited, before B proceeds); A's install exit then settles
with `codeA` and A's continuation runs; finally B's install exits with
`codeB` and B's continuation runs. `none` when either launch fails before
its install spawn (not the case in the scenario proved below). -/
def relaunchScenario (eA eB : LaunchEnv) (codeA codeB : Int) (s0 : St) : Option St :=
  if eA.hasWindow = false ∨ eB.hasWindow = false then none
  else
    match launchPrefix eA (launchInitialState eA (prepareFreshInstance s0)) with
    | (_, .error _) => none
    | (sA, .ok midA) =>
      match launchPrefix eB (launchInitialState eB (prepareFreshInstance sA)) with
      | (_, .error _) => none
      | (sB, .ok midB) =>
        let sAresumed := launchInstallContinuation eA midA codeA sB
        some (launchInstallContinuation eB midB codeB sAresumed)

/-! ## Concrete inputs for witnesses and counterexamples -/

/-- The store's pre-launch observable record (the initial values the
repository's tests reset to). -/
def initialWCState : WCState where
  status := .idle
  installProgress := 0
  installPhase := none
  packageManager := none
  framework := .unknown
  devCommandLabel := none
  previewPort := none
  previewUrl := none
  lastMessage := some "Awaiting workspace launch."
  errorMsg := none
  logs := []

/-- A quiescent orchestrator: nothing booted, no live process. -/
def initialSt : St where
  webcontainerInstance := none
  installProcess := none
  devProcess := none
  listenersBound := false
  installTerminationCause := none
  devTerminationCause := none
  web := initialWCState
  consoleLines := []
  fileTreeSet := false
  events := []

/-- A Next.js project manifest. -/
def nextPkg : PackageJson :=
  ⟨[("dev", "next dev")], [("next", "14.2.3")], []⟩

/-- A Vite project manifest (vite declared under devDependencies, as
scaffolded Vite apps do). -/
def vitePkg : PackageJson :=
  ⟨[("dev", "vite")], [], [("vite", "5.0.0")]⟩

/-- A synced Next.js file tree. -/
def syncedNextFiles : Files :=
  ⟨false, false, false, some nextPkg⟩

/-- A synced Vite file tree. -/
def syncedViteFiles : Files :=
  ⟨false, false, false, some vitePkg⟩

/-- A benign launch environment: browser present, boot succeeds, the
repository syncs to a Next.js project, install exits 0. -/
def envA : LaunchEnv where
  hasWindow := true
  bootSucceeds := true
  syncResult := some (syncedNextFiles, .npm, true)
  syncErrorMessage := "sync failed"
  syncProgressMessages := []
  workspaceTemplateId := none
  repoOwner := "octo"
  repoName := "alpha"
  promptFn := none
  instanceId := 10
  installPid := 1
  installChunks := []
  installExitCode := 0
  devPid := 5
  devChunks := []

/-- The superseding launch's environment (fresh instance and process
identities, otherwise as `envA`). -/
def envB : LaunchEnv :=
  { envA with instanceId := 11, installPid := 2, devPid := 3 }

/-- `envA` with the repository syncing to a Vite project instead (inferred
port 5173). -/
def envVite : LaunchEnv :=
  { envA with syncResult := some (syncedViteFiles, .npm, true) }

/-- `envA` outside a browser (`window` undefined). -/
def envNoWindow : LaunchEnv :=
  { envA with hasWindow := false }

/-- The final state of the C1 interleaving with the superseded install
exiting 137 and the new install exiting 0. -/
def c1Final : St :=
  (relaunchScenario envA envB 137 0 initialSt).getD initialSt

/-- A manifest declaring both `next` and `vite` under `dependencies`. -/
def mNextVite : RepositoryManifest :=
  ⟨some ⟨[], [("next", "14.2.3"), ("vite", "5.0.0")], []⟩,
    false, false, false, false, false, none, none⟩

/-- A manifest whose package.json matches the create-react-app script
pattern (`start`/`build`/`test`/`eject` plus `react` and `react-dom`)
without declaring `react-scripts`, a yarn lockfile, or any name hint. -/
def pkgCraScripts : PackageJson :=
  ⟨[("start", "react-scripts start"), ("build", "react-scripts build"),
      ("test", "react-scripts test"), ("eject", "react-scripts eject")],
    [("react", "18.0.0"), ("react-dom", "18.0.0")], []⟩

/-! ## Per-claim reference models

`craSignalPerClaim` renders claim C6's create-react-app signal inventory
word for word, to be compared with the source's `detectCreateReactApp`.
The `...Amended` detectors render the corrected signal inventories as
ordered signal lists; the amended claim is their extensional agreement
with the source detectors. -/

/-- The create-react-app signal inventory exactly as claim C6 states it:
an explicit dependency declaration yields `high`; a framework-specific
config file yields `medium` — the detector's input bundle has no
create-react-app config flag, so no such signal can fire; a repository
name or description indicator yields `low`; and exactly one additional
signal, at `low` confidence: a yarn lockfile co-occurring with `react` and
`react-dom` dependencies. The value is the confidence of the first
matching signal, `none` when no signal matches. -/
def craSignalPerClaim (packageJson : Option PackageJson) (hasYarnLock : Bool)
    (repoName repoDescription : Option String) : Option Confidence :=
  let deps := (packageJson.map (·.dependencies)).getD []
  let devDeps := (packageJson.map (·.devDependencies)).getD []
  if truthy (allDepsLookup deps devDeps "react-scripts") then some .high
  else if matchesIndicators repoName ["create-react-app", "cra-app", "react-app"] ||
      matchesIndicators repoDescription ["create react app", "cra", "react app"] then
    some .low
  else if hasYarnLock && truthy (lookup deps "react") && truthy (lookup deps "react-dom") then
    some .low
  else
    none

/-- First matching signal of an ordered signal list. -/
def firstSignal : List (Bool × Confidence × String) → Option (Confidence × String)
  | [] => none
  | (cond, c, r) :: rest => if cond then some (c, r) else firstSignal rest

/-- Next.js signal inventory of the amended claim: merged dependency
(high) > config file (medium) > name/description indicator (low). -/
def detectNextJsAmended (packageJson : Option PackageJson) (hasNextConfig : Bool)
    (repoName repoDescription : Option String) : Option DetectionResult :=
  let deps := (packageJson.map (·.dependencies)).getD []
  let devDeps := (packageJson.map (·.devDependencies)).getD []
  (firstSignal
    [(truthy (allDepsLookup deps devDeps "next"), .high,
        "Next.js dependency found in package.json"),
      (hasNextConfig, .medium, "Next.js configuration file found"),
      (matchesIndicators repoName ["next", "nextjs", "next-app"] ||
          matchesIndicators repoDescription ["next.js", "next app", "nextjs"], .low,
        "Repository name or description suggests Next.js")]).map
    (fun cr => ⟨some "nextjs-starter", cr.1, cr.2⟩)

/-- Vite signal inventory of the amended claim, same shape as Next.js. -/
def detectViteAmended (packageJson : Option PackageJson) (hasViteConfig : Bool)
    (repoName repoDescription : Option String) : Option DetectionResult :=
  let deps := (packageJson.map (·.dependencies)).getD []
  let devDeps := (packageJson.map (·.devDependencies)).getD []
  (firstSignal
    [(truthy (allDepsLookup deps devDeps "vite"), .high,
        "Vite dependency found in package.json"),
      (hasViteConfig, .medium, "Vite configuration file found"),
      (matchesIndicators repoName ["vite", "vite-app", "vite-react"] ||
          matchesIndicators repoDescription ["vite", "vite app", "vite react"], .low,
        "Repository name or description suggests Vite")]).map
    (fun cr => ⟨some "vite-react-starter", cr.1, cr.2⟩)

/-- Create-react-app signal inventory of the amended claim:
`react-scripts` under `dependencies` specifically (high) > all four CRA
scripts together with `react` and `react-dom` dependencies (medium) > a
yarn lockfile with `react` and `react-dom` (low) > name/description
indicator (low); no config-file signal exists for CRA. -/
def detectCreateReactAppAmended (packageJson : Option PackageJson) (hasYarnLock : Bool)
    (repoName repoDescription : Option String) : Option DetectionResult :=
  let deps := (packageJson.map (·.dependencies)).getD []
  let scripts := (packageJson.map (·.scripts)).getD []
  (firstSignal
    [(truthy (lookup deps "react-scripts"), .high,
        "Create React App dependency (react-scripts) found in package.json"),
      (["start", "build", "test", "eject"].all (fun s => truthy (lookup scripts s)) &&
          truthy (lookup deps "react") && truthy (lookup deps "react-dom"), .medium,
        "Create React App script pattern detected"),
      (hasYarnLock && truthy (lookup deps "react") && truthy (lookup deps "react-dom"), .low,
        "React project with yarn.lock detected (may be Create React App)"),
      (matchesIndicators repoName ["create-react-app", "cra-app", "react-app"] ||
          matchesIndicators repoDescription ["create react app", "cra", "react app"], .low,
        "Repository name or description suggests Create React App")]).map
    (fun cr => ⟨some "cra-starter", cr.1, cr.2⟩)

/-- An orchestrator state with a live install process, used by witnesses. -/
def stWithInstall : St :=
  { initialSt with installProcess := some 7 }

/-- A synced tree whose manifest declares no scripts and no dependencies,
so no dev command can be inferred. -/
def emptyManifestFiles : Files :=
  ⟨false, false, false, some ⟨[], [], []⟩⟩

/-- `envA` with a manifest from which no dev command can be inferred. -/
def envNoScripts : LaunchEnv :=
  { envA with syncResult := some (emptyManifestFiles, .npm, true) }

/-- A launch environment whose repository sync fails with the Vite starter
selected, falling back to the bundled `vite-react-starter` template whose
declared default port is 5173. -/
def envFallback : LaunchEnv :=
  { envA with
    syncResult := none
    workspaceTemplateId := some "vite-react-starter" }

/-- The disjunction of every Next.js signal consulted by `detectNextJs`,
in the source's order: truthy merged `next` dependency, `next` config
file, name/description indicator. The helper returns a result exactly
when this fires. -/
def nextSignal (packageJson : Option PackageJson) (hasNextConfig : Bool)
    (repoName repoDescription : Option String) : Bool :=
  truthy (allDepsLookup ((packageJson.map (·.dependencies)).getD [])
      ((packageJson.map (·.devDependencies)).getD []) "next") ||
    hasNextConfig ||
    (matchesIndicators repoName ["next", "nextjs", "next-app"] ||
      matchesIndicators repoDescription ["next.js", "next app", "nextjs"])

/-- The disjunction of every Vite signal consulted by `detectVite`. -/
def viteSignal (packageJson : Option PackageJson) (hasViteConfig : Bool)
    (repoName repoDescription : Option String) : Bool :=
  truthy (allDepsLookup ((packageJson.map (·.dependencies)).getD [])
      ((packageJson.map (·.devDependencies)).getD []) "vite") ||
    hasViteConfig ||
    (matchesIndicators repoName ["vite", "vite-app", "vite-react"] ||
      matchesIndicators repoDescription ["vite", "vite app", "vite react"])

/-- The disjunction of every create-react-app signal consulted by
`detectCreateReactApp`. -/
def craSignal (packageJson : Option PackageJson) (hasYarnLock : Bool)
    (repoName repoDescription : Option String) : Bool :=
  let deps := (packageJson.map (·.dependencies)).getD []
  let scripts := (packageJson.map (·.scripts)).getD []
  truthy (lookup deps "react-scripts") ||
    (["start", "build", "test", "eject"].all (fun s => truthy (lookup scripts s)) &&
      truthy (lookup deps "react") && truthy (lookup deps "react-dom")) ||
    (hasYarnLock && truthy (lookup deps "react") && truthy (lookup deps "react-dom")) ||
    (matchesIndicators repoName ["create-react-app", "cra-app", "react-app"] ||
      matchesIndicators repoDescription ["create react app", "cra", "react app"])

/-- A manifest with only a medium-strength Next.js signal (a `next.config`
file, no `next` dependency) and a high-strength Vite signal (truthy `vite`
dependency): the case where a weaker Next match must still beat a stronger
Vite match. -/
def mNextConfigViteDep : RepositoryManifest :=
  ⟨some ⟨[], [("vite", "5.0.0")], []⟩, false, false, false, true, false, none, none⟩

/-! ## Helper lemmas -/

theorem dropWhile_self (p : α → Bool) (l : List α) :
    (l.dropWhile p).dropWhile p = l.dropWhile p := by
  induction l with
  | nil => rfl
  | cons a t ih =>
    by_cases h : p a
    · simp [List.dropWhile_cons, h, ih]
    · simp [List.dropWhile_cons, h]

theorem toList_mk (l : List Char) : (String.mk l).toList = l := rfl

theorem trimEndList_idem (s : List Char) :
    trimEndList (trimEndList s) = trimEndList s := by
  simp [trimEndList, dropWhile_self]

theorem trimEndStr_idem (s : String) :
    trimEndStr (trimEndStr s) = trimEndStr s := by
  simp [trimEndStr, toList_mk, trimEndList_idem]

end LiveHub

namespace LiveHub

/-! ## Claim theorems -/

/-- C8: the Process Output Classifier splits each chunk on line breaks,
trims trailing whitespace, drops empty lines, and classifies every
remaining line error/warn/info by the lexical keyword rule; in particular
the chunk "npm WARN deprecated foo\nDone\n" yields exactly two lines, the
first `warn` and the second `info`. -/
theorem c8_output_classifier :
    processChunk "npm WARN deprecated foo\nDone\n" =
      [(.warn, "npm WARN deprecated foo"), (.info, "Done")] ∧
    ∀ chunk level line, (level, line) ∈ processChunk chunk →
      line ≠ "" ∧ trimEndStr line = line ∧ level = classifyLine line := by
  constructor
  · rfl
  · intro chunk level line hmem
    simp only [processChunk, List.mem_map, List.mem_filter] at hmem
    obtain ⟨l, ⟨hl, hlen⟩, heq⟩ := hmem
    obtain ⟨y, _, hy⟩ := hl
    have hline : l = line := congrArg Prod.snd heq
    have hlevel : classifyLine l = level := congrArg Prod.fst heq
    subst hline
    refine ⟨?_, ?_, hlevel.symm⟩
    · intro hnil
      rw [hnil] at hlen
      simp at hlen
    · rw [← hy, trimEndStr_idem]

/-- Witness for C8's universally quantified part at the claim's concrete
chunk and its second line. -/
theorem c8_output_classifier_witness :
    ("Done" : String) ≠ "" ∧ trimEndStr "Done" = "Done" ∧
      Level.info = classifyLine "Done" :=
  c8_output_classifier.2 "npm WARN deprecated foo\nDone\n" .info "Done" (by decide)

/-- C7: whenever the manifest's `dependencies` map contains the key
`next`, the Run-Command Inferencer returns framework `next`, script `dev`,
port 3000, and the exact display command of the package manager
(`npm run dev` / `yarn dev` / `pnpm dev`), for any scripts map and any
prompt capability. -/
theorem c7_next_dependency (pkg : PackageJson) (v : String) (pf : Option PromptFn)
    (h : lookup pkg.dependencies "next" = some v) :
    inferDevCommand (some pkg) .npm pf =
      some ⟨.next, "dev", "npm", ["run", "dev"], "npm run dev", 3000⟩ ∧
    inferDevCommand (some pkg) .yarn pf =
      some ⟨.next, "dev", "yarn", ["dev"], "yarn dev", 3000⟩ ∧
    inferDevCommand (some pkg) .pnpm pf =
      some ⟨.next, "dev", "pnpm", ["dev"], "pnpm dev", 3000⟩ := by
  have hk : hasKey pkg.dependencies "next" = true := by
    simp [hasKey, h]
  refine ⟨?_, ?_, ?_⟩ <;>
    simp [inferDevCommand, hk, buildCommand]

/-- Witness for C7 at a concrete Next.js manifest. -/
theorem c7_next_dependency_witness :
    lookup nextPkg.dependencies "next" = some "14.2.3" ∧
    inferDevCommand (some nextPkg) .npm none =
      some ⟨.next, "dev", "npm", ["run", "dev"], "npm run dev", 3000⟩ :=
  ⟨by decide, (c7_next_dependency nextPkg "14.2.3" none (by decide)).1⟩

theorem detectNextJs_templateId (p : Option PackageJson) (c : Bool)
    (n d : Option String) (r : DetectionResult)
    (h : detectNextJs p c n d = some r) :
    r.templateId = some "nextjs-starter" := by
  simp only [detectNextJs] at h
  split_ifs at h <;> (injection h with h) <;> (subst h) <;> simp_all

theorem detectVite_templateId (p : Option PackageJson) (c : Bool)
    (n d : Option String) (r : DetectionResult)
    (h : detectVite p c n d = some r) :
    r.templateId = some "vite-react-starter" := by
  simp only [detectVite] at h
  split_ifs at h <;> (injection h with h) <;> (subst h) <;> simp_all

theorem detectCreateReactApp_high_source (p : Option PackageJson) (y : Bool)
    (n d : Option String) (r : DetectionResult)
    (h : detectCreateReactApp p y n d = some r) (hc : r.confidence = .high) :
    truthy (lookup ((p.map (·.dependencies)).getD []) "react-scripts") = true := by
  simp only [detectCreateReactApp] at h
  split_ifs at h <;> (injection h with h) <;> (subst h) <;> simp_all

theorem detectCreateReactApp_templateId (p : Option PackageJson) (y : Bool)
    (n d : Option String) (r : DetectionResult)
    (h : detectCreateReactApp p y n d = some r) :
    r.templateId = some "cra-starter" := by
  simp only [detectCreateReactApp] at h
  split_ifs at h <;> (injection h with h) <;> (subst h) <;> simp_all

theorem detectNextJs_isSome (p : Option PackageJson) (c : Bool) (n d : Option String) :
    (detectNextJs p c n d).isSome = nextSignal p c n d := by
  simp only [detectNextJs, nextSignal]
  split_ifs <;> simp_all

theorem detectVite_isSome (p : Option PackageJson) (c : Bool) (n d : Option String) :
    (detectVite p c n d).isSome = viteSignal p c n d := by
  simp only [detectVite, viteSignal]
  split_ifs <;> simp_all

theorem detectCreateReactApp_isSome (p : Option PackageJson) (y : Bool)
    (n d : Option String) :
    (detectCreateReactApp p y n d).isSome = craSignal p y n d := by
  simp only [detectCreateReactApp, craSignal]
  split_ifs <;> simp_all

/-- C5: the Template Detector evaluates frameworks in strict priority
next → vite → create-react-app and the first framework with ANY matching
signal wins outright regardless of the other frameworks' signal strength:
any Next.js signal — high, medium or low — forces `nextjs-starter`
whatever Vite or CRA signals are present; with no Next.js signal, any
Vite signal forces `vite-react-starter`; with neither, any
create-react-app signal forces `cra-starter`. A truthy merged `next`
dependency moreover yields exactly the high-confidence Next.js result,
and the manifest with both `dependencies.next` and `dependencies.vite`
yields `nextjs-starter` at `high` confidence. -/
theorem c5_next_priority :
    (∀ m : RepositoryManifest,
      nextSignal m.packageJson m.hasNextConfig m.repoName m.repoDescription = true →
      (detectWorkspaceTemplate m).templateId = some "nextjs-starter") ∧
    (∀ m : RepositoryManifest,
      nextSignal m.packageJson m.hasNextConfig m.repoName m.repoDescription = false →
      viteSignal m.packageJson m.hasViteConfig m.repoName m.repoDescription = true →
      (detectWorkspaceTemplate m).templateId = some "vite-react-starter") ∧
    (∀ m : RepositoryManifest,
      nextSignal m.packageJson m.hasNextConfig m.repoName m.repoDescription = false →
      viteSignal m.packageJson m.hasViteConfig m.repoName m.repoDescription = false →
      craSignal m.packageJson m.hasYarnLock m.repoName m.repoDescription = true →
      (detectWorkspaceTemplate m).templateId = some "cra-starter") ∧
    (∀ m : RepositoryManifest, ∀ pkg, m.packageJson = some pkg →
      truthy (allDepsLookup pkg.dependencies pkg.devDependencies "next") = true →
      detectWorkspaceTemplate m =
        ⟨some "nextjs-starter", .high, "Next.js dependency found in package.json"⟩) ∧
    detectWorkspaceTemplate mNextVite =
      ⟨some "nextjs-starter", .high, "Next.js dependency found in package.json"⟩ := by
  refine ⟨?_, ?_, ?_, ?_, by decide⟩
  · intro m h
    have hs := detectNextJs_isSome m.packageJson m.hasNextConfig m.repoName m.repoDescription
    rw [h] at hs
    obtain ⟨r, hr⟩ := Option.isSome_iff_exists.mp hs
    unfold detectWorkspaceTemplate
    rw [hr]
    exact detectNextJs_templateId _ _ _ _ r hr
  · intro m h1 h2
    have hn := detectNextJs_isSome m.packageJson m.hasNextConfig m.repoName m.repoDescription
    rw [h1] at hn
    have hnone : detectNextJs m.packageJson m.hasNextConfig m.repoName m.repoDescription =
        none := Option.not_isSome_iff_eq_none.mp (by simp [hn])
    have hv := detectVite_isSome m.packageJson m.hasViteConfig m.repoName m.repoDescription
    rw [h2] at hv
    obtain ⟨r, hr⟩ := Option.isSome_iff_exists.mp hv
    unfold detectWorkspaceTemplate
    rw [hnone, hr]
    exact detectVite_templateId _ _ _ _ r hr
  · intro m h1 h2 h3
    have hn := detectNextJs_isSome m.packageJson m.hasNextConfig m.repoName m.repoDescription
    rw [h1] at hn
    have hnone : detectNextJs m.packageJson m.hasNextConfig m.repoName m.repoDescription =
        none := Option.not_isSome_iff_eq_none.mp (by simp [hn])
    have hv := detectVite_isSome m.packageJson m.hasViteConfig m.repoName m.repoDescription
    rw [h2] at hv
    have hvnone : detectVite m.packageJson m.hasViteConfig m.repoName m.repoDescription =
        none := Option.not_isSome_iff_eq_none.mp (by simp [hv])
    have hc := detectCreateReactApp_isSome m.packageJson m.hasYarnLock m.repoName
      m.repoDescription
    rw [h3] at hc
    obtain ⟨r, hr⟩ := Option.isSome_iff_exists.mp hc
    unfold detectWorkspaceTemplate
    rw [hnone, hvnone, hr]
    exact detectCreateReactApp_templateId _ _ _ _ r hr
  · intro m pkg hpkg htruthy
    simp [detectWorkspaceTemplate, detectNextJs, hpkg, htruthy]

/-- Witness for C5: a manifest with only a medium-strength Next.js signal
(config file) against a high-strength Vite signal (truthy dependency)
still resolves to `nextjs-starter`; without any Next.js signal a Vite
dependency resolves to `vite-react-starter`; and the both-dependencies
manifest is high-confidence Next.js. -/
theorem c5_next_priority_witness :
    (detectWorkspaceTemplate mNextConfigViteDep).templateId = some "nextjs-starter" ∧
    (detectWorkspaceTemplate
        ⟨some vitePkg, false, false, false, false, false, none, none⟩).templateId =
      some "vite-react-starter" ∧
    detectWorkspaceTemplate mNextVite =
      ⟨some "nextjs-starter", .high, "Next.js dependency found in package.json"⟩ :=
  ⟨c5_next_priority.1 mNextConfigViteDep (by decide),
    (c5_next_priority.2.1 ⟨some vitePkg, false, false, false, false, false, none, none⟩
      (by decide) (by decide)),
    c5_next_priority.2.2.2.1 mNextVite ⟨[], [("next", "14.2.3"), ("vite", "5.0.0")], []⟩
      rfl (by decide)⟩

/-- C10: a high-confidence `cra-starter` result requires `react-scripts`
under the manifest's `dependencies` map specifically — a manifest whose
`dependencies` lack a truthy `react-scripts` (in particular one declaring
it only under `devDependencies`) never produces it — while the Next.js and
Vite high-confidence signals consult the merged union of `dependencies`
and `devDependencies`, so a dependency declared only under
`devDependencies` suffices for them. -/
theorem c10_cra_high_dependencies_only :
    (∀ m : RepositoryManifest, ∀ pkg, m.packageJson = some pkg →
      truthy (lookup pkg.dependencies "react-scripts") = false →
      ¬ ((detectWorkspaceTemplate m).templateId = some "cra-starter" ∧
        (detectWorkspaceTemplate m).confidence = .high)) ∧
    (∀ pkg : PackageJson, ∀ c : Bool, ∀ n d : Option String, ∀ v : String,
      lookup pkg.devDependencies "next" = some v → v ≠ "" →
      detectNextJs (some pkg) c n d =
        some ⟨some "nextjs-starter", .high, "Next.js dependency found in package.json"⟩) ∧
    (∀ pkg : PackageJson, ∀ c : Bool, ∀ n d : Option String, ∀ v : String,
      lookup pkg.devDependencies "vite" = some v → v ≠ "" →
      detectVite (some pkg) c n d =
        some ⟨some "vite-react-starter", .high, "Vite dependency found in package.json"⟩) := by
  refine ⟨?_, ?_, ?_⟩
  · intro m pkg hpkg hfalse hboth
    obtain ⟨hid, hconf⟩ := hboth
    unfold detectWorkspaceTemplate at hid hconf
    rcases hnext : detectNextJs m.packageJson m.hasNextConfig m.repoName m.repoDescription with
      _ | rn
    · rcases hvite : detectVite m.packageJson m.hasViteConfig m.repoName m.repoDescription with
        _ | rv
      · rcases hcra : detectCreateReactApp m.packageJson m.hasYarnLock m.repoName
            m.repoDescription with _ | rc
        · rw [hnext, hvite, hcra] at hid
          simp at hid
        · rw [hnext, hvite, hcra] at hid hconf
          have := detectCreateReactApp_high_source m.packageJson m.hasYarnLock m.repoName
            m.repoDescription rc hcra hconf
          rw [hpkg] at this
          simp [hfalse] at this
      · rw [hnext, hvite] at hid
        have := detectVite_templateId m.packageJson m.hasViteConfig m.repoName
          m.repoDescription rv hvite
        rw [hid] at this
        simp at this
    · rw [hnext] at hid
      have := detectNextJs_templateId m.packageJson m.hasNextConfig m.repoName
        m.repoDescription rn hnext
      rw [hid] at this
      simp at this
  · intro pkg c n d v hv hne
    have ht : truthy (allDepsLookup pkg.dependencies pkg.devDependencies "next") = true := by
      simp [allDepsLookup, hv, truthy, hne]
    simp [detectNextJs, ht]
  · intro pkg c n d v hv hne
    have ht : truthy (allDepsLookup pkg.dependencies pkg.devDependencies "vite") = true := by
      simp [allDepsLookup, hv, truthy, hne]
    simp [detectVite, ht]

/-- Witness for C10 at concrete manifests: `react-scripts` only under
`devDependencies` is not high-confidence CRA, while `vite` only under
`devDependencies` is high-confidence Vite. -/
theorem c10_cra_high_dependencies_only_witness :
    ¬ ((detectWorkspaceTemplate
          ⟨some ⟨[], [], [("react-scripts", "5.0.1")]⟩,
            false, false, false, false, false, none, none⟩).templateId =
        some "cra-starter" ∧
      (detectWorkspaceTemplate
          ⟨some ⟨[], [], [("react-scripts", "5.0.1")]⟩,
            false, false, false, false, false, none, none⟩).confidence = .high) ∧
    detectVite (some vitePkg) false none none =
      some ⟨some "vite-react-starter", .high, "Vite dependency found in package.json"⟩ :=
  ⟨c10_cra_high_dependencies_only.1
      ⟨some ⟨[], [], [("react-scripts", "5.0.1")]⟩,
        false, false, false, false, false, none, none⟩
      ⟨[], [], [("react-scripts", "5.0.1")]⟩ rfl (by decide),
    c10_cra_high_dependencies_only.2.2 vitePkg false none none "5.0.0"
      (by decide) (by decide)⟩

/-- C6 counterexample: the code's create-react-app helper has a medium
signal (the four CRA scripts with `react` and `react-dom`) absent from the
claim's signal inventory — on a manifest with exactly that pattern the
source returns a medium-confidence result while the claim's inventory
fires no signal at all. -/
theorem c6_counterexample :
    detectCreateReactApp (some pkgCraScripts) false none none =
      some ⟨some "cra-starter", .medium, "Create React App script pattern detected"⟩ ∧
    craSignalPerClaim (some pkgCraScripts) false none none = none := by decide

/-- C6 amended: for Next.js and Vite the within-framework ordering is
merged dependency (high) > config file (medium) > name/description
indicator (low); create-react-app deviates: its high signal reads
`react-scripts` under `dependencies` only, it has no config-file signal,
its second signal is the four CRA scripts with `react` and `react-dom`
at medium, and it has two further low signals — yarn lockfile with
`react`/`react-dom`, then name/description indicator. Each source helper
agrees extensionally with the amended ordered signal inventory. -/
theorem c6_amended_signal_inventory :
    (∀ p c n d, detectNextJs p c n d = detectNextJsAmended p c n d) ∧
    (∀ p c n d, detectVite p c n d = detectViteAmended p c n d) ∧
    (∀ p y n d, detectCreateReactApp p y n d = detectCreateReactAppAmended p y n d) := by
  refine ⟨?_, ?_, ?_⟩ <;> intro p c n d <;>
    simp only [detectNextJs, detectNextJsAmended, detectVite, detectViteAmended,
      detectCreateReactApp, detectCreateReactAppAmended, firstSignal] <;>
    split_ifs <;> simp_all [firstSignal]

/-- C9: `cancelInstallation` with no live install is a no-op leaving the
whole observable state unchanged; with a live install it records
termination cause `user` before issuing the kill, nulls the handle, sets
state `idle` with the cancellation message, and never lets an exception
escape even when the kill itself fails. -/
theorem c9_cancel_install (killFails : Bool) (s : St) :
    (s.installProcess = none → cancelInstallation killFails s = (s, none)) ∧
    (∀ pid, s.installProcess = some pid →
      (cancelInstallation killFails s).2 = none ∧
      (cancelInstallation killFails s).1.installProcess = none ∧
      (cancelInstallation killFails s).1.installTerminationCause = some .user ∧
      (cancelInstallation killFails s).1.web.status = .idle ∧
      (cancelInstallation killFails s).1.web.installProgress = 0 ∧
      (cancelInstallation killFails s).1.web.lastMessage =
        some "Installation cancelled by user." ∧
      (cancelInstallation killFails s).1.events =
        s.events ++ [.setInstallCause (some .user), .killInstall pid, .statusSet .idle] ∧
      (cancelInstallation killFails s).1.consoleLines =
        s.consoleLines ++ [(.warn, "Dependency installation cancelled by user request.")]) := by
  constructor
  · intro h
    simp [cancelInstallation, h]
  · intro pid h
    cases killFails <;> simp [cancelInstallation, h, emit, pushLog]

/-- Witness for C9: the no-op case on the quiescent state, and the
live-install case with a failing kill. -/
theorem c9_cancel_install_witness :
    cancelInstallation false initialSt = (initialSt, none) ∧
    (cancelInstallation true stWithInstall).2 = none ∧
    (cancelInstallation true stWithInstall).1.web.status = .idle ∧
    (cancelInstallation true stWithInstall).1.events =
      stWithInstall.events ++
        [.setInstallCause (some .user), .killInstall 7, .statusSet .idle] :=
  ⟨(c9_cancel_install false initialSt).1 rfl,
    ((c9_cancel_install true stWithInstall).2 7 rfl).1,
    ((c9_cancel_install true stWithInstall).2 7 rfl).2.2.2.1,
    ((c9_cancel_install true stWithInstall).2 7 rfl).2.2.2.2.2.2.1⟩

/-- C2 counterexample: outside a browser (`window` undefined) the
environment check throws before the try/catch, so `launchWorkspace`
rejects past the Orchestrator boundary with the environment message and no
state change — in particular no transition to `error`. -/
theorem c2_counterexample_env_check_escapes :
    launchWorkspace envNoWindow initialSt =
      (initialSt, some "WebContainers can only be used in the browser environment.") ∧
    initialSt.web.status ≠ .error ∧ initialSt.web.errorMsg = none := by decide

/-- C2 amended: once the environment check passes (a browser `window`
exists), `launchWorkspace` never rejects: the prior-state teardown
swallows its own failures and every throw inside the launch sequence is
caught and funnelled into the single `reportError` handler. -/
theorem c2_amended_no_escape_in_browser (env : LaunchEnv) (s : St)
    (h : env.hasWindow = true) :
    (launchWorkspace env s).2 = none := by
  unfold launchWorkspace
  rw [h]
  simp only [Bool.true_eq_false, if_false]
  rcases launchPrefix env (launchInitialState env (prepareFreshInstance s)) with
    ⟨s1, r⟩
  cases r <;> rfl

/-- Witness for C2's amended theorem at a concrete benign environment. -/
theorem c2_amended_no_escape_in_browser_witness :
    envA.hasWindow = true ∧ (launchWorkspace envA initialSt).2 = none :=
  ⟨rfl, c2_amended_no_escape_in_browser envA initialSt rfl⟩

/-- C1 (code bug): in the superseding-launch interleaving the teardown
does mark the prior install `restart` and kills it, awaited before the new
install is spawned, and exactly one dev process and no install handle are
live at completion — but the superseded install's non-zero exit IS
reported as an error: the abandoned first launch's continuation checks
only the `user` cause before treating a non-zero exit as fatal, so the
run transitions through `error`, leaves the install-failure message as the
recorded error at completion, and pushes the install-failure console line
into the second launch's console. -/
theorem c1_superseded_install_reported_as_error :
    relaunchScenario envA envB 137 0 initialSt = some c1Final ∧
    c1Final.events.indexOf (.setInstallCause (some .restart)) <
      c1Final.events.indexOf (.killInstall 1) ∧
    c1Final.events.indexOf (.killInstall 1) <
      c1Final.events.indexOf (.spawnInstall 2) ∧
    (Event.setInstallCause (some .restart)) ∈ c1Final.events ∧
    (Event.killInstall 1) ∈ c1Final.events ∧
    (Event.spawnInstall 2) ∈ c1Final.events ∧
    c1Final.installProcess = none ∧
    c1Final.devProcess = some 3 ∧
    (Event.statusSet .error) ∈ c1Final.events ∧
    c1Final.web.errorMsg =
      some "Dependency installation failed with exit code 137. Check the console for details." ∧
    (Level.error,
      "Dependency installation failed with exit code 137. Check the console for details.")
      ∈ c1Final.consoleLines := by decide

theorem pushLogFold_spec (lines : List (Level × String)) (s : St) :
    lines.foldl (fun s lv => pushLog lv.2 lv.1 s) s =
      { s with consoleLines := s.consoleLines ++ lines } := by
  induction lines generalizing s with
  | nil => simp
  | cons a t ih =>
    simp only [List.foldl_cons]
    rw [ih]
    simp [pushLog]

theorem applyInstallChunk_events (c : String) (s : St) :
    (applyInstallChunk c s).events = s.events := by
  simp only [applyInstallChunk]
  rw [pushLogFold_spec]
  split_ifs <;> rfl

theorem applyInstallChunk_cause (c : String) (s : St) :
    (applyInstallChunk c s).installTerminationCause = s.installTerminationCause := by
  simp only [applyInstallChunk]
  rw [pushLogFold_spec]
  split_ifs <;> rfl

theorem installFold_events (chunks : List String) (s : St) :
    (chunks.foldl (fun s c => applyInstallChunk c s) s).events = s.events := by
  induction chunks generalizing s with
  | nil => rfl
  | cons a t ih =>
    simp only [List.foldl_cons]
    rw [ih, applyInstallChunk_events]

theorem installFold_cause (chunks : List String) (s : St) :
    (chunks.foldl (fun s c => applyInstallChunk c s) s).installTerminationCause =
      s.installTerminationCause := by
  induction chunks generalizing s with
  | nil => rfl
  | cons a t ih =>
    simp only [List.foldl_cons]
    rw [ih, applyInstallChunk_cause]

theorem applyDevChunk_events (c : String) (s : St) :
    (applyDevChunk c s).events = s.events := by
  simp only [applyDevChunk]
  rw [pushLogFold_spec]

theorem devFold_events (chunks : List String) (s : St) :
    (chunks.foldl (fun s c => applyDevChunk c s) s).events = s.events := by
  induction chunks generalizing s with
  | nil => rfl
  | cons a t ih =>
    simp only [List.foldl_cons]
    rw [ih, applyDevChunk_events]

theorem devFold_web (chunks : List String) (s : St) :
    (chunks.foldl (fun s c => applyDevChunk c s) s).web = s.web := by
  induction chunks generalizing s with
  | nil => rfl
  | cons a t ih =>
    simp only [List.foldl_cons]
    rw [ih]
    simp only [applyDevChunk]
    rw [pushLogFold_spec]

theorem devFold_listenersBound (chunks : List String) (s : St) :
    (chunks.foldl (fun s c => applyDevChunk c s) s).listenersBound = s.listenersBound := by
  induction chunks generalizing s with
  | nil => rfl
  | cons a t ih =>
    simp only [List.foldl_cons]
    rw [ih]
    simp only [applyDevChunk]
    rw [pushLogFold_spec]

theorem applyProgress_events (msgs : List String) (s : St) :
    (applyProgress msgs s).events = s.events := by
  induction msgs generalizing s with
  | nil => rfl
  | cons m t ih =>
    simp only [applyProgress, List.foldl_cons] at ih ⊢
    rw [ih]
    rfl

theorem applyInstallChunk_listenersBound (c : String) (s : St) :
    (applyInstallChunk c s).listenersBound = s.listenersBound := by
  simp only [applyInstallChunk]
  rw [pushLogFold_spec]
  split_ifs <;> rfl

theorem installFold_listenersBound (chunks : List String) (s : St) :
    (chunks.foldl (fun s c => applyInstallChunk c s) s).listenersBound =
      s.listenersBound := by
  induction chunks generalizing s with
  | nil => rfl
  | cons a t ih =>
    simp only [List.foldl_cons]
    rw [ih, applyInstallChunk_listenersBound]

theorem applyProgress_listenersBound (msgs : List String) (s : St) :
    (applyProgress msgs s).listenersBound = s.listenersBound := by
  induction msgs generalizing s with
  | nil => rfl
  | cons m t ih =>
    simp only [applyProgress, List.foldl_cons] at ih ⊢
    rw [ih]
    rfl

/-- C3 counterexample: in a benign launch the dev command is inferred
before the install process is even spawned (and hence before it exits),
contradicting the claimed step order. -/
theorem c3_counterexample_infer_before_install :
    (launchWorkspace envA initialSt).1.events.indexOf (.inferRan true) <
      (launchWorkspace envA initialSt).1.events.indexOf (.spawnInstall 1) ∧
    (launchWorkspace envA initialSt).1.events.indexOf (.spawnInstall 1) <
      (launchWorkspace envA initialSt).1.events.indexOf (.installExited 0) ∧
    (Event.inferRan true) ∈ (launchWorkspace envA initialSt).1.events ∧
    (Event.spawnInstall 1) ∈ (launchWorkspace envA initialSt).1.events ∧
    (Event.installExited 0) ∈ (launchWorkspace envA initialSt).1.events := by decide

/-- C3 amended: within a single launch the state is set to
`installing-dependencies`, then the dev command is inferred, and only on
successful inference is the install process spawned and awaited — the key
events of a benign launch occur exactly in that order; if inference
returns null the launch fails fatally with the "unable to determine the
development server command" message before any install is spawned. -/
theorem c3_amended_infer_before_install_spawn :
    (∀ env : LaunchEnv, ∀ files pm d,
      env.hasWindow = true → env.bootSucceeds = true →
      env.syncResult = some (files, pm, true) →
      inferDevCommand (parsePackageJson files) pm env.promptFn = some d →
      env.installExitCode = 0 →
      keyEvents (launchWorkspace env initialSt).1.events =
        [.statusSet .initializing, .statusSet .installingDependencies,
          .inferRan true, .spawnInstall env.installPid, .installExited 0,
          .statusSet .startingDevServer, .spawnDev env.devPid,
          .provisionalPort 3000]) ∧
    (∀ env : LaunchEnv, ∀ files pm,
      env.hasWindow = true → env.bootSucceeds = true →
      env.syncResult = some (files, pm, true) →
      inferDevCommand (parsePackageJson files) pm env.promptFn = none →
      (launchWorkspace env initialSt).1.web.status = .error ∧
      (launchWorkspace env initialSt).1.web.errorMsg =
        some "Unable to determine the development server command. Define a dev or start script in package.json." ∧
      ∀ pid, (Event.spawnInstall pid) ∉ (launchWorkspace env initialSt).1.events) := by
  constructor
  · intro env files pm d h1 h2 h3 h4 h5
    simp [launchWorkspace, launchPrefix, launchInitialState, prepareFreshInstance,
      bootWebContainer, bindInstanceEvents, syncOrFallback, launchInstallContinuation,
      launchTail, runInstallSpawn, runInstallResume, runDevServer, reportError,
      emit, h1, h2, h3, h4, h5, applyProgress_events, applyProgress_listenersBound,
      installFold_events, installFold_cause, installFold_listenersBound,
      devFold_events, devFold_web, devFold_listenersBound,
      pushLog, keyEvents, keyEvent, initialSt, initialWCState]
  · intro env files pm h1 h2 h3 h4
    simp [launchWorkspace, launchPrefix, launchInitialState, prepareFreshInstance,
      bootWebContainer, bindInstanceEvents, syncOrFallback, launchInstallContinuation,
      launchTail, reportError, emit, h1, h2, h3, h4, applyProgress_events,
      pushLog, initialSt, initialWCState]

/-- Witness for C3's amended theorem: the benign Next.js launch and the
empty-manifest launch. -/
theorem c3_amended_infer_before_install_spawn_witness :
    keyEvents (launchWorkspace envA initialSt).1.events =
      [.statusSet .initializing, .statusSet .installingDependencies,
        .inferRan true, .spawnInstall 1, .installExited 0,
        .statusSet .startingDevServer, .spawnDev 5, .provisionalPort 3000] ∧
    (launchWorkspace envNoScripts initialSt).1.web.status = .error :=
  ⟨c3_amended_infer_before_install_spawn.1 envA syncedNextFiles .npm
      ⟨.next, "dev", "npm", ["run", "dev"], "npm run dev", 3000⟩
      rfl rfl rfl (by decide) rfl,
    (c3_amended_infer_before_install_spawn.2 envNoScripts emptyManifestFiles .npm
      rfl rfl rfl (by decide)).1⟩

/-- C4 counterexample: in a benign non-fallback Vite launch the inferred
port is 5173, yet the provisional preview port published right after the
dev-server spawn is 3000 — the provisional port is not the inferred
port. -/
theorem c4_counterexample_provisional_port_not_inferred :
    (inferDevCommand (parsePackageJson syncedViteFiles) .npm none).map (·.port) =
      some 5173 ∧
    (launchWorkspace envVite initialSt).1.web.previewPort = some 3000 ∧
    (Event.provisionalPort 3000) ∈ (launchWorkspace envVite initialSt).1.events ∧
    (Event.provisionalPort 5173) ∉ (launchWorkspace envVite initialSt).1.events := by
  decide

/-- C4 amended: the provisional preview port published immediately after
the dev-server spawn is the constant 3000 for a launch that used the
synced repository (whatever port was inferred), and the fallback
template's declared default port (3000 for `nextjs-starter` and
`cra-starter`, 5173 for `vite-react-starter` in the fixed bundled
registry; 3000 if it were zero) for a launch that fell back to a
template. -/
theorem c4_amended_provisional_port :
    (∀ env : LaunchEnv, ∀ files pm d,
      env.hasWindow = true → env.bootSucceeds = true →
      env.syncResult = some (files, pm, true) →
      inferDevCommand (parsePackageJson files) pm env.promptFn = some d →
      env.installExitCode = 0 →
      (launchWorkspace env initialSt).1.web.previewPort = some 3000 ∧
      (Event.provisionalPort 3000) ∈ (launchWorkspace env initialSt).1.events) ∧
    (∀ env : LaunchEnv, ∀ t pkg d,
      env.hasWindow = true → env.bootSucceeds = true →
      env.syncResult = none →
      getWorkspaceTemplateById
        (some (templateIdOrDefault env.workspaceTemplateId)) = some t →
      t.files.manifest = some pkg →
      inferDevCommand (some pkg) (detectPackageManager t.files) env.promptFn = some d →
      env.installExitCode = 0 →
      (launchWorkspace env initialSt).1.web.previewPort =
        some (jsOrNat (some t.defaultPort) 3000) ∧
      (Event.provisionalPort (jsOrNat (some t.defaultPort) 3000))
        ∈ (launchWorkspace env initialSt).1.events) := by
  constructor
  · intro env files pm d h1 h2 h3 h4 h5
    simp [launchWorkspace, launchPrefix, launchInitialState, prepareFreshInstance,
      bootWebContainer, bindInstanceEvents, syncOrFallback, launchInstallContinuation,
      launchTail, runInstallSpawn, runInstallResume, runDevServer, reportError,
      emit, h1, h2, h3, h4, h5, applyProgress_events, applyProgress_listenersBound,
      installFold_events, installFold_cause, installFold_listenersBound,
      devFold_events, devFold_web, devFold_listenersBound,
      pushLog, initialSt, initialWCState]
  · intro env t pkg d h1 h2 h3 h4 h5 h6 h7
    simp [launchWorkspace, launchPrefix, launchInitialState, prepareFreshInstance,
      bootWebContainer, bindInstanceEvents, syncOrFallback, launchInstallContinuation,
      launchTail, runInstallSpawn, runInstallResume, runDevServer, reportError,
      parsePackageJson, emit, h1, h2, h3, h4, h5, h6, h7, applyProgress_events,
      applyProgress_listenersBound, installFold_events, installFold_cause,
      installFold_listenersBound, devFold_events, devFold_web,
      devFold_listenersBound, pushLog, initialSt, initialWCState]

/-- Witness for C4's amended theorem: the synced Vite launch publishes
3000, while the launch falling back to the bundled `vite-react-starter`
template publishes that template's declared port 5173. -/
theorem c4_amended_provisional_port_witness :
    (launchWorkspace envVite initialSt).1.web.previewPort = some 3000 ∧
    (launchWorkspace envFallback initialSt).1.web.previewPort = some 5173 :=
  ⟨(c4_amended_provisional_port.1 envVite syncedViteFiles .npm
      ⟨.vite, "dev", "npm", ["run", "dev"], "npm run dev", 5173⟩
      rfl rfl rfl (by decide) rfl).1,
    (c4_amended_provisional_port.2 envFallback
      ⟨"vite-react-starter", "Vite + React starter",
        "Vite React template configured for TypeScript in WebContainers.",
        5173, viteStarterFiles⟩
      viteStarterPkg
      ⟨.vite, "dev", "pnpm", ["dev"], "pnpm dev", 5173⟩
      rfl rfl rfl (by decide) rfl (by decide) rfl).1⟩

end LiveHub
